import Mathlib

/-!
Verification of the carbon-guard-cli computational core.

This file gives a shallow embedding, over `ℚ`, of the arithmetic core of the
repository (AWS auditing tables, the local resource-to-CO2 estimator, the
reduction-plan selector and the receipt carbon-footprint calculator) and proves
the stated properties of that core.  Python floats are modelled as rationals;
Python dictionaries holding numeric tables are modelled as association lists in
their insertion order; fallible external calls (boto3, CloudWatch) are modelled
as `Except` values handed to the auditing functions.  Presentation-only
behaviour of the source (rounding of already-computed values for display via
`round(x, k)`, timestamps, log messages, and string report fields) is omitted;
every quantity a claim speaks about is embedded before any such rounding,
exactly as computed by the source.
-/

namespace CarbonGuard

/-- `charsStartsWith pat s` is true when `pat` is an initial segment of `s`. -/
def charsStartsWith : List Char → List Char → Bool
  | [], _ => true
  | _ :: _, [] => false
  | a :: as, b :: bs => a == b && charsStartsWith as bs

/-- `charsContains pat s` models the Python substring test `pat in s`. -/
def charsContains (pat : List Char) : List Char → Bool
  | [] => pat.isEmpty
  | c :: rest => charsStartsWith pat (c :: rest) || charsContains pat rest

/-- Lower-cased character list of a string, modelling Python `str.lower()`. -/
def lowerChars (s : String) : List Char := s.toList.map Char.toLower

/-- Lower-cased string, modelling Python `str.lower()`. -/
def lowerString (s : String) : String := String.mk (lowerChars s)

namespace AWSAuditor

/-- CO2 emission factors (kg CO2 per kWh) by AWS region, from
`AWSAuditor.REGION_CARBON_INTENSITY` (aws_auditor.py lines 18-27). -/
def REGION_CARBON_INTENSITY : List (String × ℚ) :=
  [("us-east-1", 415/1000000),
   ("us-east-2", 523/1000000),
   ("us-west-1", 351/1000000),
   ("us-west-2", 351/1000000),
   ("eu-west-1", 316/1000000),
   ("eu-central-1", 338/1000000),
   ("ap-southeast-1", 493/1000000),
   ("ap-northeast-1", 506/1000000)]

/-- The fallback used in `AWSAuditor.__init__`:
`self.REGION_CARBON_INTENSITY.get(region, 0.0004)` (line 66). -/
def defaultCarbonIntensity : ℚ := 4/10000

/-- Per-region carbon intensity with the documented default for unknown
regions, modelling `REGION_CARBON_INTENSITY.get(region, 0.0004)`. -/
def carbonIntensity (region : String) : ℚ :=
  (REGION_CARBON_INTENSITY.lookup region).getD defaultCarbonIntensity

/-- Power consumption estimates (watts) for instance types, from
`AWSAuditor.INSTANCE_POWER_CONSUMPTION` (aws_auditor.py lines 30-48). -/
def INSTANCE_POWER_CONSUMPTION : List (String × ℚ) :=
  [("t2.nano", 5), ("t2.micro", 10), ("t2.small", 20), ("t2.medium", 40),
   ("t3.nano", 5), ("t3.micro", 10), ("t3.small", 20), ("t3.medium", 40),
   ("m5.large", 80), ("m5.xlarge", 160), ("m5.2xlarge", 320),
   ("c5.large", 70), ("c5.xlarge", 140), ("c5.2xlarge", 280),
   ("r5.large", 200), ("r5.xlarge", 180), ("r5.2xlarge", 360)]

/-- `INSTANCE_POWER_CONSUMPTION.get(instance_type, 50)` (line 182). -/
def instancePowerWatts (instanceType : String) : ℚ :=
  (INSTANCE_POWER_CONSUMPTION.lookup instanceType).getD 50

/-- Per-instance hourly CO2: `power_kwh = power_watts / 1000` then
`co2_per_hour = power_kwh * carbon_intensity` (lines 183-186). -/
def instanceCo2PerHour (instanceType : String) (ci : ℚ) : ℚ :=
  instancePowerWatts instanceType / 1000 * ci

/-- The running-total accumulation `total_co2_per_hour += co2_per_hour`
over the instance loop of `audit_ec2` (lines 176-224). -/
def ec2TotalCo2PerHour (types : List String) (ci : ℚ) : ℚ :=
  (types.map (fun t => instanceCo2PerHour t ci)).sum

/-- The per-service slice of an audit result that the error policy concerns:
the accumulated `co2_kg_per_hour` and the optional `error` message string. -/
structure ServiceResult where
  co2_kg_per_hour : ℚ
  error : Option String
deriving DecidableEq

/-- `audit_ec2` (lines 155-260): the `describe_instances` call is modelled as
an `Except` carrying the running instance types.  Both `except` arms of the
source (lines 237-260) swallow the exception and return a zeroed result, so
the function is total. -/
def auditEc2 (region : String) (call : Except String (List String)) : ServiceResult :=
  match call with
  | .ok types => ⟨ec2TotalCo2PerHour types (carbonIntensity region), none⟩
  | .error e => ⟨0, some e⟩

/-- An RDS instance as `audit_rds` reads it: class string and status. -/
structure RdsInstance where
  cls : String
  status : String
deriving DecidableEq

/-- `instance_class.replace("db.", "")` (line 280); RDS class names carry
the `db.` marker exactly once, as a prefix, which this strips. -/
def stripDbMarker (cls : String) : String :=
  if charsStartsWith "db.".toList cls.toList then cls.drop 3 else cls

/-- Hourly CO2 of one available RDS instance: base power from the EC2 table
with default 60, times the 1.2 RDS overhead, over 1000, times the carbon
intensity (lines 279-286). -/
def rdsInstanceCo2PerHour (inst : RdsInstance) (ci : ℚ) : ℚ :=
  (INSTANCE_POWER_CONSUMPTION.lookup (stripDbMarker inst.cls)).getD 60 * (6/5) / 1000 * ci

/-- `audit_rds` (lines 262-317): sums CO2 over instances whose status is
`available`; a `ClientError` from the `describe_db_instances` call is logged
and then re-raised (`raise`, line 317), modelled by propagating the error. -/
def auditRds (ci : ℚ) (call : Except String (List RdsInstance)) :
    Except String ServiceResult :=
  match call with
  | .ok instances =>
      .ok ⟨((instances.filter (fun i => i.status == "available")).map
              (fun i => rdsInstanceCo2PerHour i ci)).sum, none⟩
  | .error e => .error e

/-- A Lambda function as `audit_lambda` reads it: its memory size in MB. -/
structure LambdaFn where
  memory_mb : ℚ
deriving DecidableEq

/-- Hourly CO2 of one Lambda function: `power_watts = (memory_mb/1024) * 2`,
`power_kwh = power_watts/1000`, `co2 = power_kwh * ci * 0.1` (lines 336-342). -/
def lambdaFnCo2PerHour (f : LambdaFn) (ci : ℚ) : ℚ :=
  f.memory_mb / 1024 * 2 / 1000 * ci * (1/10)

/-- `audit_lambda` (lines 319-375): a `ClientError` from `list_functions` is
re-raised (line 375), modelled by propagating the error. -/
def auditLambda (ci : ℚ) (call : Except String (List LambdaFn)) :
    Except String ServiceResult :=
  match call with
  | .ok fns => .ok ⟨(fns.map (fun f => lambdaFnCo2PerHour f ci)).sum, none⟩
  | .error e => .error e

/-- Hourly CO2 of one S3 bucket of the given size in GB:
`power_watts = (size_gb/1024) * 0.5`, over 1000, times ci (lines 397-405). -/
def s3BucketCo2PerHour (sizeGb ci : ℚ) : ℚ :=
  sizeGb / 1024 * (1/2) / 1000 * ci

/-- `audit_s3` (lines 377-452): the outer `list_buckets` failure is re-raised
(line 452); the inner per-bucket CloudWatch size query failure is swallowed
and the bucket contributes zero (lines 425-438).  Each bucket is modelled as
its size query outcome. -/
def auditS3 (ci : ℚ) (call : Except String (List (Except String ℚ))) :
    Except String ServiceResult :=
  match call with
  | .ok buckets =>
      .ok ⟨(buckets.map (fun b =>
              match b with
              | .ok sizeGb => s3BucketCo2PerHour sizeGb ci
              | .error _ => 0)).sum, none⟩
  | .error e => .error e

/-- The per-service `except` arm of `audit_all_services` (lines 90-115):
a propagated exception becomes `{"error": str(e), "co2_kg_per_hour": 0}`. -/
def tryDefault (r : Except String ServiceResult) : ServiceResult :=
  match r with
  | .ok v => v
  | .error e => ⟨0, some e⟩

/-- The four per-service results assembled by `audit_all_services`. -/
structure AllResults where
  ec2 : ServiceResult
  rds : ServiceResult
  lambdaFns : ServiceResult
  s3 : ServiceResult
deriving DecidableEq

/-- `audit_all_services` (lines 78-117): every per-service audit is wrapped in
try/except and a failure is replaced by the zeroed default, so the aggregate
is always produced. -/
def auditAllServices (region : String)
    (ec2Call : Except String (List String))
    (rdsCall : Except String (List RdsInstance))
    (lambdaCall : Except String (List LambdaFn))
    (s3Call : Except String (List (Except String ℚ))) : AllResults :=
  { ec2 := tryDefault (.ok (auditEc2 region ec2Call))
    rds := tryDefault (auditRds (carbonIntensity region) rdsCall)
    lambdaFns := tryDefault (auditLambda (carbonIntensity region) lambdaCall)
    s3 := tryDefault (auditS3 (carbonIntensity region) s3Call) }

end AWSAuditor

namespace LocalAuditor

/-- `total_energy_kwh = (total_power_watts / 1000) * duration_hours` with
`duration_hours = duration / 3600` (local_auditor.py lines 231-232 and
463-464). -/
def energyKwh (totalPowerWatts duration : ℚ) : ℚ :=
  totalPowerWatts / 1000 * (duration / 3600)

/-- `total_co2_kg = total_energy_kwh * carbon_intensity` (lines 235 and 467). -/
def co2FromPower (totalPowerWatts duration ci : ℚ) : ℚ :=
  energyKwh totalPowerWatts duration * ci

/-- One monitoring sample as consumed by `_calculate_co2_from_metrics`
(the second, overriding definition at local_auditor.py lines 356-534). -/
structure MetricSample where
  system_cpu_percent : ℚ
  memory_used_gb : ℚ
  disk_read_bytes : ℚ
  disk_write_bytes : ℚ
  network_bytes_sent : ℚ
  network_bytes_recv : ℚ
deriving DecidableEq

/-- The `power_breakdown` component of the result (before display rounding). -/
structure PowerBreakdown where
  cpu_watts : ℚ
  memory_watts : ℚ
  disk_watts : ℚ
  network_watts : ℚ
  total_watts : ℚ
deriving DecidableEq

/-- The quantities computed by `_calculate_co2_from_metrics` that the spec
speaks about (before display rounding; reporting-only fields omitted). -/
structure Co2Result where
  total_co2_kg : ℚ
  total_energy_kwh : ℚ
  avg_system_cpu_percent : ℚ
  avg_memory_gb : ℚ
  peak_memory_gb : ℚ
  total_disk_io_gb : ℚ
  total_network_gb : ℚ
  power_breakdown : PowerBreakdown
deriving DecidableEq

/-- The zeroed result returned when `monitoring_data` is empty
(local_auditor.py lines 382-404). -/
def emptyCo2Result : Co2Result :=
  ⟨0, 0, 0, 0, 0, 0, 0, ⟨0, 0, 0, 0, 0⟩⟩

/-- `LocalAuditor._calculate_co2_from_metrics` (lines 356-512), the second
class-body definition, which overrides the earlier one at line 45.  Averages
are over all samples; disk and network totals are last-minus-first counter
differences clamped at zero and taken only when more than one sample exists;
power terms and the energy/CO2 conversion follow lines 441-467.
`memPerGb` is `self.memory_power_per_gb` (default 3); the disk cap constant
is `DEFAULT_DISK_POWER = 10`. -/
def calcCo2FromMetrics (memPerGb : ℚ) (data : List MetricSample)
    (duration ci tdp : ℚ) : Co2Result :=
  match data with
  | [] => emptyCo2Result
  | first :: rest =>
    let n : ℚ := ((first :: rest).length : ℚ)
    let avgCpu := ((first :: rest).map (fun d => d.system_cpu_percent)).sum / n
    let avgMem := ((first :: rest).map (fun d => d.memory_used_gb)).sum / n
    let peakMem := rest.foldl (fun m d => max m d.memory_used_gb) first.memory_used_gb
    let last := rest.getLast?.getD first
    let diskGb :=
      if rest.isEmpty then 0
      else max 0 ((last.disk_read_bytes - first.disk_read_bytes)
            + (last.disk_write_bytes - first.disk_write_bytes)) / 1024^3
    let netGb :=
      if rest.isEmpty then 0
      else max 0 ((last.network_bytes_sent - first.network_bytes_sent)
            + (last.network_bytes_recv - first.network_bytes_recv)) / 1024^3
    let cpuPower := avgCpu / 100 * tdp
    let memPower := avgMem * memPerGb
    let diskPower := min (diskGb * 2) 10
    let netPower := netGb * (1/10)
    let totalPower := cpuPower + memPower + diskPower + netPower
    { total_co2_kg := co2FromPower totalPower duration ci
      total_energy_kwh := energyKwh totalPower duration
      avg_system_cpu_percent := avgCpu
      avg_memory_gb := avgMem
      peak_memory_gb := peakMem
      total_disk_io_gb := diskGb
      total_network_gb := netGb
      power_breakdown := ⟨cpuPower, memPower, diskPower, netPower, totalPower⟩ }

/-- `_calculate_co2_from_metrics` with the instance state (the auditor's
`monitoring_data` list) threaded explicitly: the method only reads its
arguments, so the state is returned untouched. -/
def calcCo2Run (st : List MetricSample) (memPerGb : ℚ) (data : List MetricSample)
    (duration ci tdp : ℚ) : Co2Result × List MetricSample :=
  (calcCo2FromMetrics memPerGb data duration ci tdp, st)

end LocalAuditor

namespace PlanGenerator

/-- A reduction action template (plan_generator.py `ACTION_TEMPLATES`); the
presentational `prerequisites` and `steps` string lists are omitted, the
fields entering any computation are kept. -/
structure Action where
  title : String
  category : String
  co2_reduction : ℚ
  cost_impact : ℚ
  effort_level : String
  timeline_weeks : ℚ
deriving DecidableEq

/-- `{"low": 1, "medium": 2, "high": 3}.get(effort_level, 2)` (lines 447-449). -/
def effortScore (s : String) : ℚ :=
  if s = "low" then 1 else if s = "medium" then 2 else if s = "high" then 3 else 2

/-- `timeline_score = timeline_weeks / 4` (line 450). -/
def timelineScore (a : Action) : ℚ := a.timeline_weeks / 4

/-- `impact_effort_ratio = co2_reduction / (effort_score * timeline_score)`
(lines 454-456). -/
def actionRatio (a : Action) : ℚ :=
  a.co2_reduction / (effortScore a.effort_level * timelineScore a)

/-- The `scored_actions` list built by the first loop of `_select_actions`
(lines 445-457): actions whose timeline score fits the timeframe, paired with
their impact/effort ratio. -/
def scoredActions (avail : List Action) (timeframeMonths : ℚ) : List (ℚ × Action) :=
  (avail.filter (fun a => timelineScore a ≤ timeframeMonths)).map
    (fun a => (actionRatio a, a))

/-- Stable descending insertion on the score component; models one step of
the stable Python `scored_actions.sort(key=lambda x: x[0], reverse=True)`
(line 460): an earlier element stays before a later one with an equal score. -/
def insertDesc (x : ℚ × Action) : List (ℚ × Action) → List (ℚ × Action)
  | [] => [x]
  | y :: ys => if y.1 ≤ x.1 then x :: y :: ys else y :: insertDesc x ys

/-- Stable descending sort by score (line 460). -/
def sortScoredDesc : List (ℚ × Action) → List (ℚ × Action)
  | [] => []
  | x :: xs => insertDesc x (sortScoredDesc xs)

/-- The greedy selection loop of `_select_actions` (lines 462-475): while the
cumulative reduction is below target the action is accepted and the cumulative
total grows; after each step the loop breaks once the cumulative total exceeds
`target * 1.5`. -/
def greedySelect (target : ℚ) : List (ℚ × Action) → ℚ → List Action
  | [], _ => []
  | (_, a) :: rest, cum =>
    if cum < target then
      let cum' := cum + a.co2_reduction
      if target * (3/2) < cum' then [a] else a :: greedySelect target rest cum'
    else
      if target * (3/2) < cum then [] else greedySelect target rest cum

/-- `PlanGenerator._select_actions` (lines 437-475). -/
def selectActions (avail : List Action) (target timeframeMonths : ℚ) : List Action :=
  greedySelect target (sortScoredDesc (scoredActions avail timeframeMonths)) 0

/-- The baseline record assembled by `_load_baseline_data` (lines 316-373),
restricted to the numeric fields later computations read. -/
structure Baseline where
  aws_co2_kg_per_hour : ℚ
  local_co2_kg_per_execution : ℚ
  personal_co2_kg_per_month : ℚ
  total_monthly_co2_kg : ℚ
deriving DecidableEq

/-- `PlanGenerator._action_applicable` (lines 400-418). -/
def actionApplicable (a : Action) (b : Baseline) : Bool :=
  if a.category = "infrastructure" ∨ a.category = "storage" ∨ a.category = "scheduling" then
    decide (0 < b.aws_co2_kg_per_hour)
  else if a.category = "code" ∨ a.category = "performance" ∨ a.category = "database"
      ∨ a.category = "memory" then
    decide (0 < b.local_co2_kg_per_execution)
  else if a.category = "diet" ∨ a.category = "transport" ∨ a.category = "energy"
      ∨ a.category = "consumption" then
    true
  else
    true

/-- `PlanGenerator._adjust_action_for_baseline` (lines 420-435): scales
`co2_reduction` by 1.2 above 1000 kg/month and by 0.8 below 100 kg/month. -/
def adjustAction (a : Action) (b : Baseline) : Action :=
  if 0 < b.total_monthly_co2_kg then
    if 1000 < b.total_monthly_co2_kg then
      { a with co2_reduction := a.co2_reduction * (6/5) }
    else if b.total_monthly_co2_kg < 100 then
      { a with co2_reduction := a.co2_reduction * (4/5) }
    else a
  else a

/-- The class-level `ACTION_TEMPLATES` table (lines 16-250), keyed by focus
area, in source order. -/
def ACTION_TEMPLATES : List (String × List Action) :=
  [("aws",
    [⟨"Optimize EC2 Instance Types", "infrastructure", 15, -200, "medium", 2⟩,
     ⟨"Implement Auto Scaling", "infrastructure", 25, -300, "high", 4⟩,
     ⟨"Migrate to ARM-based Instances", "infrastructure", 20, -150, "medium", 3⟩,
     ⟨"Optimize S3 Storage Classes", "storage", 10, -100, "low", 1⟩,
     ⟨"Schedule Non-Critical Workloads", "scheduling", 12, -50, "medium", 2⟩]),
   ("local",
    [⟨"Optimize Algorithm Efficiency", "code", 30, 0, "high", 6⟩,
     ⟨"Implement Caching Strategies", "performance", 20, 50, "medium", 3⟩,
     ⟨"Optimize Database Queries", "database", 15, 0, "medium", 2⟩,
     ⟨"Reduce Memory Usage", "memory", 10, 0, "medium", 4⟩]),
   ("personal",
    [⟨"Reduce Meat Consumption", "diet", 40, -20, "medium", 8⟩,
     ⟨"Optimize Transportation", "transport", 35, -100, "low", 2⟩,
     ⟨"Reduce Energy Consumption", "energy", 25, -150, "low", 1⟩,
     ⟨"Buy Local and Seasonal", "consumption", 15, 0, "low", 2⟩])]

/-- `PlanGenerator._get_available_actions` (lines 375-398), over an explicit
templates table `st` standing for the class attribute. -/
def getAvailableActions (st : List (String × List Action)) (focus : String)
    (b : Baseline) : List Action :=
  let avail := if focus = "all" then (st.map (fun p => p.2)).flatten
               else (st.lookup focus).getD []
  (avail.filter (fun a => actionApplicable a b)).map (fun a => adjustAction a b)

/-- The `actions` list of a plan produced by `generate_plan` (lines 261-314):
available actions for the focus area, greedily selected against the target. -/
def planActions (st : List (String × List Action)) (focus : String) (b : Baseline)
    (target timeframeMonths : ℚ) : List Action :=
  selectActions (getAvailableActions st focus b) target timeframeMonths

/-- Plan generation with the class-level templates state threaded explicitly:
`generate_plan` and `_select_actions` only read the templates, so the state
comes back untouched. -/
def selectRun (st : List (String × List Action)) (focus : String) (b : Baseline)
    (target timeframeMonths : ℚ) : List Action × List (String × List Action) :=
  (planActions st focus b target timeframeMonths, st)

end PlanGenerator

namespace ReceiptParser

/-- `ReceiptParser.EMISSION_FACTORS` (receipt_parser.py lines 25-57),
kg CO2 per unit, in insertion order. -/
def EMISSION_FACTORS : List (String × ℚ) :=
  [("meat_beef", 27), ("meat_pork", 121/10), ("meat_chicken", 69/10),
   ("meat_fish", 61/10), ("dairy_milk", 32/10), ("dairy_cheese", 135/10),
   ("dairy_yogurt", 22/10), ("vegetables", 2), ("fruits", 11/10),
   ("grains", 27/10), ("bread", 9/10), ("eggs", 42/10),
   ("fuel_gasoline", 231/100), ("fuel_diesel", 268/100),
   ("public_transport", 89/1000), ("taxi_ride", 21/100),
   ("electricity", 475/1000), ("natural_gas", 202/1000),
   ("clothing", 334/10), ("electronics", 300), ("books", 18/10),
   ("household_items", 5), ("cosmetics", 3), ("cleaning_products", 25/10)]

/-- `ReceiptParser.CATEGORY_KEYWORDS` (lines 60-81), in insertion order. -/
def CATEGORY_KEYWORDS : List (String × List String) :=
  [("meat_beef", ["beef", "steak", "ground beef", "hamburger", "roast beef"]),
   ("meat_pork", ["pork", "bacon", "ham", "sausage", "pork chop"]),
   ("meat_chicken", ["chicken", "poultry", "turkey", "chicken breast"]),
   ("meat_fish", ["fish", "salmon", "tuna", "cod", "shrimp", "seafood"]),
   ("dairy_milk", ["milk", "whole milk", "skim milk", "2% milk"]),
   ("dairy_cheese", ["cheese", "cheddar", "mozzarella", "swiss", "parmesan"]),
   ("dairy_yogurt", ["yogurt", "yoghurt", "greek yogurt"]),
   ("vegetables", ["vegetables", "lettuce", "tomato", "carrot", "broccoli",
                   "spinach", "onion"]),
   ("fruits", ["apple", "banana", "orange", "grape", "strawberry", "fruit"]),
   ("grains", ["rice", "pasta", "cereal", "oats", "quinoa"]),
   ("bread", ["bread", "loaf", "bagel", "roll", "baguette"]),
   ("eggs", ["eggs", "egg"]),
   ("fuel_gasoline", ["gasoline", "gas", "unleaded", "premium"]),
   ("fuel_diesel", ["diesel"]),
   ("electricity", ["electric", "electricity", "power"]),
   ("clothing", ["shirt", "pants", "dress", "jacket", "shoes", "clothing"]),
   ("electronics", ["phone", "laptop", "tablet", "headphones", "charger"]),
   ("books", ["book", "magazine", "newspaper"]),
   ("household_items", ["detergent", "soap", "shampoo", "toothpaste"]),
   ("cosmetics", ["makeup", "lipstick", "foundation", "perfume"])]

/-- The `price_per_unit` table local to `_estimate_amount` (lines 385-402).
Note its keys use a `food_` marker for meats while categories use `meat_`. -/
def PRICE_PER_UNIT : List (String × ℚ) :=
  [("food_beef", 15), ("food_pork", 10), ("food_chicken", 8), ("food_fish", 20),
   ("dairy_milk", 3/2), ("dairy_cheese", 12), ("dairy_yogurt", 4),
   ("vegetables", 3), ("fruits", 4), ("grains", 2), ("bread", 3), ("eggs", 3),
   ("fuel_gasoline", 3/2), ("fuel_diesel", 8/5),
   ("clothing", 50), ("electronics", 500)]

/-- `ReceiptParser._categorize_item` (lines 353-362): the first category, in
table order, one of whose keywords occurs in the lower-cased item name. -/
def categorizeItem (name : String) : Option String :=
  CATEGORY_KEYWORDS.findSome? (fun p =>
    if p.2.any (fun kw => charsContains kw.toList (lowerChars name)) then some p.1
    else none)

/-- The `unit_price` computed by `_estimate_amount` (lines 379-412): the
price-per-unit table looked up on the derived category with default 10.0,
then overridden for the literal item names beef / chicken / milk. -/
def assumedUnitPrice (item : String) : ℚ :=
  if lowerString item = "beef" then 15
  else if lowerString item = "chicken" then 8
  else if lowerString item = "milk" then 3/2
  else ((categorizeItem item).bind (fun c => PRICE_PER_UNIT.lookup c)).getD 10

/-- `ReceiptParser._estimate_amount` (lines 379-415):
`base_estimate = price / unit_price`, returned times `quantity`. -/
def estimateAmount (item : String) (price quantity : ℚ) : ℚ :=
  price / assumedUnitPrice item * quantity

/-- One parsed receipt item as consumed by `calculate_carbon_footprint`. -/
structure ReceiptItem where
  name : String
  price : ℚ
  quantity : ℚ
deriving DecidableEq

/-- The per-item record appended to `items_with_emissions` (lines 318-326). -/
structure ItemCarbon where
  name : String
  category : String
  quantity : ℚ
  price : ℚ
  estimated_amount : ℚ
  emission_factor : ℚ
  co2_emissions_kg : ℚ
deriving DecidableEq

/-- The buckets and total of `calculate_carbon_footprint` that the spec
speaks about (`category_breakdown`, `match_rate` and the confidence string
are derived reporting fields and are omitted). -/
structure CarbonData where
  total_co2_kg : ℚ
  items_with_emissions : List ItemCarbon
  unmatched_items : List String
deriving DecidableEq

/-- `ReceiptParser.calculate_carbon_footprint` (lines 286-351): each item is
categorized; a categorized item with a positive emission factor contributes
`estimated_amount * emission_factor` and joins `items_with_emissions`, every
other item joins `unmatched_items`. -/
def calcFootprint : List ReceiptItem → CarbonData
  | [] => ⟨0, [], []⟩
  | it :: rest =>
    let r := calcFootprint rest
    match categorizeItem it.name with
    | some c =>
      let factor := (EMISSION_FACTORS.lookup c).getD 0
      if 0 < factor then
        let amt := estimateAmount it.name it.price it.quantity
        let co2 := amt * factor
        { total_co2_kg := co2 + r.total_co2_kg
          items_with_emissions :=
            ⟨it.name, c, it.quantity, it.price, amt, factor, co2⟩ :: r.items_with_emissions
          unmatched_items := r.unmatched_items }
      else
        { r with unmatched_items := it.name :: r.unmatched_items }
    | none =>
      { r with unmatched_items := it.name :: r.unmatched_items }

end ReceiptParser

open AWSAuditor LocalAuditor PlanGenerator ReceiptParser

/-- A candidate action with low effort and an 8-week timeline, used to
evaluate the selection order on concrete data. -/
def demoActA : PlanGenerator.Action := ⟨"A", "diet", 10, 0, "low", 8⟩

/-- A candidate action with low effort and a 4-week timeline; its
co2/effort score is below that of `demoActA` while its
co2/(effort*timeline) score is above. -/
def demoActB : PlanGenerator.Action := ⟨"B", "diet", 8, 0, "low", 4⟩

/-- A single personal-area action used to evaluate plan generation. -/
def demoActE : PlanGenerator.Action := ⟨"E", "diet", 25, 0, "low", 1⟩

/-- A one-area template table holding only `demoActE`. -/
def demoTemplates : List (String × List PlanGenerator.Action) := [("x", [demoActE])]

/-- Two receipt items: one matching the beef keywords, one unmatched. -/
def demoItems : List ReceiptParser.ReceiptItem :=
  [⟨"ground beef", 5, 1⟩, ⟨"zzz qux", 3, 2⟩]

/-- The record the footprint computation produces for a "beef" item with
price 15 and quantity 2. -/
def demoItemCarbon : ReceiptParser.ItemCarbon :=
  ⟨"beef", "meat_beef", 2, 15, 2, 27, 54⟩

/-- A successful association-list lookup finds a pair of the list. -/
theorem lookup_mem {β : Type} {l : List (String × β)} {k : String} {v : β}
    (h : l.lookup k = some v) : (k, v) ∈ l := by
  induction l with
  | nil => simp [List.lookup] at h
  | cons p rest ih =>
    obtain ⟨a, b⟩ := p
    rw [List.lookup_cons] at h
    split at h
    · rename_i hk
      obtain rfl : b = v := by simpa using h
      obtain rfl : k = a := by simpa using hk
      exact List.mem_cons_self _ _
    · exact List.mem_cons_of_mem _ (ih h)

/-- Looking up a key that no pair of the list carries yields `none`. -/
theorem lookup_eq_none_of_notkey {β : Type} {l : List (String × β)} {k : String}
    (h : ∀ p ∈ l, p.1 ≠ k) : l.lookup k = none := by
  induction l with
  | nil => simp [List.lookup]
  | cons p rest ih =>
    obtain ⟨a, b⟩ := p
    rw [List.lookup_cons]
    have ha : (k == a) = false := by
      simp only [beq_eq_false_iff_ne, ne_eq]
      intro hka
      exact h (a, b) (List.mem_cons_self _ _) hka.symm
    simp only [ha]
    exact ih (fun q hq => h q (List.mem_cons_of_mem _ hq))

/-- Claim C1: for non-negative power, duration and carbon intensity, the CO2
estimate of the emission computation equals
`(power_watts/1000) * (duration/3600) * carbon_intensity`; the value
`_calculate_co2_from_metrics` computes is exactly this formula applied to its
total power; and the estimate is monotone non-decreasing in the power, the
duration and the carbon intensity. -/
theorem c1_co2_formula_monotone
    (p p' d d' ci ci' memPerGb tdp : ℚ) (data : List LocalAuditor.MetricSample)
    (hp : 0 ≤ p) (hd : 0 ≤ d) (hci : 0 ≤ ci)
    (hpp : p ≤ p') (hdd : d ≤ d') (hcc : ci ≤ ci') :
    co2FromPower p d ci = p / 1000 * (d / 3600) * ci ∧
    (calcCo2FromMetrics memPerGb data d ci tdp).total_co2_kg
      = co2FromPower
          (calcCo2FromMetrics memPerGb data d ci tdp).power_breakdown.total_watts d ci ∧
    co2FromPower p d ci ≤ co2FromPower p' d ci ∧
    co2FromPower p d ci ≤ co2FromPower p d' ci ∧
    co2FromPower p d ci ≤ co2FromPower p d ci' := by
  refine ⟨rfl, ?_, ?_, ?_, ?_⟩
  · cases data with
    | nil =>
      simp [LocalAuditor.calcCo2FromMetrics, LocalAuditor.emptyCo2Result,
        LocalAuditor.co2FromPower, LocalAuditor.energyKwh]
    | cons first rest => rfl
  · simp only [LocalAuditor.co2FromPower, LocalAuditor.energyKwh]
    have h1 : p / 1000 ≤ p' / 1000 := by linarith
    have h2 : (0:ℚ) ≤ d / 3600 := div_nonneg hd (by norm_num)
    exact mul_le_mul_of_nonneg_right (mul_le_mul_of_nonneg_right h1 h2) hci
  · simp only [LocalAuditor.co2FromPower, LocalAuditor.energyKwh]
    have h1 : d / 3600 ≤ d' / 3600 := by linarith
    have h2 : (0:ℚ) ≤ p / 1000 := div_nonneg hp (by norm_num)
    exact mul_le_mul_of_nonneg_right (mul_le_mul_of_nonneg_left h1 h2) hci
  · simp only [LocalAuditor.co2FromPower, LocalAuditor.energyKwh]
    exact mul_le_mul_of_nonneg_left hcc
      (mul_nonneg (div_nonneg hp (by norm_num)) (div_nonneg hd (by norm_num)))

/-- Witness for C1 at power 1 and 2 W, duration 3 and 4 s, intensity 5 and 6,
with an empty metric list for the estimator conjunct. -/
theorem c1_co2_formula_monotone_witness :
    co2FromPower 1 3 5 = 1 / 1000 * (3 / 3600) * 5 ∧
    (calcCo2FromMetrics 3 [] 3 5 65).total_co2_kg
      = co2FromPower (calcCo2FromMetrics 3 [] 3 5 65).power_breakdown.total_watts 3 5 ∧
    co2FromPower 1 3 5 ≤ co2FromPower 2 3 5 ∧
    co2FromPower 1 3 5 ≤ co2FromPower 1 4 5 ∧
    co2FromPower 1 3 5 ≤ co2FromPower 1 3 6 :=
  c1_co2_formula_monotone 1 2 3 4 5 6 3 65 [] (by norm_num) (by norm_num)
    (by norm_num) (by norm_num) (by norm_num) (by norm_num)

/-- Claim C6: every region of the table maps to its fixed carbon-intensity
constant, and a region string outside the table maps to the single documented
default 0.0004. -/
theorem c6_region_carbon_intensity (r : String)
    (hr : ∀ p ∈ AWSAuditor.REGION_CARBON_INTENSITY, p.1 ≠ r) :
    carbonIntensity "us-east-1" = 415/1000000 ∧
    carbonIntensity "us-east-2" = 523/1000000 ∧
    carbonIntensity "us-west-1" = 351/1000000 ∧
    carbonIntensity "us-west-2" = 351/1000000 ∧
    carbonIntensity "eu-west-1" = 316/1000000 ∧
    carbonIntensity "eu-central-1" = 338/1000000 ∧
    carbonIntensity "ap-southeast-1" = 493/1000000 ∧
    carbonIntensity "ap-northeast-1" = 506/1000000 ∧
    carbonIntensity r = defaultCarbonIntensity := by
  refine ⟨?_, ?_, ?_, ?_, ?_, ?_, ?_, ?_, ?_⟩
  · simp [AWSAuditor.carbonIntensity, AWSAuditor.REGION_CARBON_INTENSITY, List.lookup_cons]
  · simp [AWSAuditor.carbonIntensity, AWSAuditor.REGION_CARBON_INTENSITY, List.lookup_cons]
  · simp [AWSAuditor.carbonIntensity, AWSAuditor.REGION_CARBON_INTENSITY, List.lookup_cons]
  · simp [AWSAuditor.carbonIntensity, AWSAuditor.REGION_CARBON_INTENSITY, List.lookup_cons]
  · simp [AWSAuditor.carbonIntensity, AWSAuditor.REGION_CARBON_INTENSITY, List.lookup_cons]
  · simp [AWSAuditor.carbonIntensity, AWSAuditor.REGION_CARBON_INTENSITY, List.lookup_cons]
  · simp [AWSAuditor.carbonIntensity, AWSAuditor.REGION_CARBON_INTENSITY, List.lookup_cons]
  · simp [AWSAuditor.carbonIntensity, AWSAuditor.REGION_CARBON_INTENSITY, List.lookup_cons]
  · rw [AWSAuditor.carbonIntensity, lookup_eq_none_of_notkey hr]
    rfl

/-- Witness for C6 at the unknown region string `xx-test-1`. -/
theorem c6_region_carbon_intensity_witness :
    carbonIntensity "xx-test-1" = defaultCarbonIntensity ∧
    carbonIntensity "us-east-1" = 415/1000000 :=
  ⟨(c6_region_carbon_intensity "xx-test-1" (by decide)).2.2.2.2.2.2.2.2,
   (c6_region_carbon_intensity "xx-test-1" (by decide)).1⟩

/-- Claim C9: the aggregate EC2 estimate is linear in instance count: a fleet
of n identical instances audits to exactly n times the single-instance CO2,
doubling the count doubles the aggregate, and 8 m5.large instances in
us-east-1 give exactly 8 times 0.08 kW times 0.000415 kg/kWh. -/
theorem c9_ec2_scaling (n : ℕ) (t region : String) (ci : ℚ) :
    (auditEc2 region (.ok (List.replicate n t))).co2_kg_per_hour
      = n * instanceCo2PerHour t (carbonIntensity region) ∧
    ec2TotalCo2PerHour (List.replicate (2 * n) t) ci
      = 2 * ec2TotalCo2PerHour (List.replicate n t) ci ∧
    ec2TotalCo2PerHour (List.replicate 8 "m5.large") (carbonIntensity "us-east-1")
      = 8 * (80 / 1000 * (415 / 1000000)) := by
  have key : ∀ (m : ℕ) (ty : String) (c : ℚ),
      ec2TotalCo2PerHour (List.replicate m ty) c = m * instanceCo2PerHour ty c := by
    intro m ty c
    simp [AWSAuditor.ec2TotalCo2PerHour, List.map_replicate, List.sum_replicate,
      nsmul_eq_mul]
  refine ⟨?_, ?_, ?_⟩
  · simpa [AWSAuditor.auditEc2] using key n t (carbonIntensity region)
  · rw [key, key]
    push_cast
    ring
  · rw [key]
    have h80 : instancePowerWatts "m5.large" = (80:ℚ) := rfl
    have hci : carbonIntensity "us-east-1" = 415/1000000 := rfl
    rw [AWSAuditor.instanceCo2PerHour, h80, hci]
    norm_num

/-- Claim C5 counterexample: `audit_rds` re-raises a failing external
`describe_db_instances` call instead of substituting a zero-valued default,
so an estimator does propagate an exception to its caller. -/
theorem c5_error_policy_counterexample :
    auditRds (415/1000000) (.error "AccessDenied") = .error "AccessDenied" := rfl

/-- Claim C5 amended: `audit_ec2` swallows failures of its external call and
returns a zeroed result, but `audit_rds`, `audit_lambda` and `audit_s3`
re-raise a client error from their top-level external call (audit_s3 only
swallows per-bucket size failures, which contribute zero); the aggregator
`audit_all_services` wraps every per-service audit in try/except and
substitutes the zero default, so aggregation always proceeds. -/
theorem c5_amended_error_policy (region e sizeErr : String)
    (ec2Call : Except String (List String))
    (lambdaCall : Except String (List AWSAuditor.LambdaFn))
    (s3Call : Except String (List (Except String ℚ))) :
    auditEc2 region (.error e) = ⟨0, some e⟩ ∧
    auditRds (carbonIntensity region) (.error e) = .error e ∧
    auditLambda (carbonIntensity region) (.error e) = .error e ∧
    auditS3 (carbonIntensity region) (.error e) = .error e ∧
    auditS3 (carbonIntensity region) (.ok [.error sizeErr]) = .ok ⟨0, none⟩ ∧
    (auditAllServices region ec2Call (.error e) lambdaCall s3Call).rds = ⟨0, some e⟩ ∧
    auditAllServices region (.error e) (.error e) (.error e) (.error e)
      = ⟨⟨0, some e⟩, ⟨0, some e⟩, ⟨0, some e⟩, ⟨0, some e⟩⟩ := by
  refine ⟨rfl, rfl, rfl, rfl, ?_, rfl, rfl⟩
  simp [AWSAuditor.auditS3]

/-- Claim C8: plan selection and the metrics-to-CO2 estimator are
deterministic and idempotent; with the class-level template table and the
auditor's sample list threaded as explicit state, two successive runs return
equal outputs and leave the state exactly as it was. -/
theorem c8_estimators_deterministic
    (st : List (String × List PlanGenerator.Action)) (focus : String)
    (b : PlanGenerator.Baseline) (target tf : ℚ)
    (lst data : List LocalAuditor.MetricSample) (memPerGb duration ci tdp : ℚ) :
    (selectRun st focus b target tf).1
      = (selectRun (selectRun st focus b target tf).2 focus b target tf).1 ∧
    (selectRun st focus b target tf).2 = st ∧
    (selectRun PlanGenerator.ACTION_TEMPLATES focus b target tf).2
      = PlanGenerator.ACTION_TEMPLATES ∧
    (calcCo2Run lst memPerGb data duration ci tdp).1
      = (calcCo2Run (calcCo2Run lst memPerGb data duration ci tdp).2
           memPerGb data duration ci tdp).1 ∧
    (calcCo2Run lst memPerGb data duration ci tdp).2 = lst :=
  ⟨rfl, rfl, rfl, rfl, rfl⟩

/-- Claim C2: for every non-empty sample list the total wattage computed by
the local auditor is the sum of exactly the four components, where
cpu = (average cpu percent / 100) * tdp, memory = average memory GB times the
per-GB wattage, network = network GB * 0.1 W, and disk = min(disk GB * 2, 10),
so the disk wattage never exceeds 10. -/
theorem c2_local_power_breakdown (memPerGb duration ci tdp : ℚ)
    (first : LocalAuditor.MetricSample) (rest : List LocalAuditor.MetricSample) :
    (calcCo2FromMetrics memPerGb (first :: rest) duration ci tdp).power_breakdown.total_watts
      = (calcCo2FromMetrics memPerGb (first :: rest) duration ci tdp).power_breakdown.cpu_watts
        + (calcCo2FromMetrics memPerGb (first :: rest) duration ci tdp).power_breakdown.memory_watts
        + (calcCo2FromMetrics memPerGb (first :: rest) duration ci tdp).power_breakdown.disk_watts
        + (calcCo2FromMetrics memPerGb (first :: rest) duration ci tdp).power_breakdown.network_watts ∧
    (calcCo2FromMetrics memPerGb (first :: rest) duration ci tdp).power_breakdown.cpu_watts
      = ((first :: rest).map (fun s => s.system_cpu_percent)).sum
          / ((first :: rest).length : ℚ) / 100 * tdp ∧
    (calcCo2FromMetrics memPerGb (first :: rest) duration ci tdp).power_breakdown.memory_watts
      = ((first :: rest).map (fun s => s.memory_used_gb)).sum
          / ((first :: rest).length : ℚ) * memPerGb ∧
    (calcCo2FromMetrics memPerGb (first :: rest) duration ci tdp).power_breakdown.disk_watts
      = min ((calcCo2FromMetrics memPerGb (first :: rest) duration ci tdp).total_disk_io_gb * 2) 10 ∧
    (calcCo2FromMetrics memPerGb (first :: rest) duration ci tdp).power_breakdown.network_watts
      = (calcCo2FromMetrics memPerGb (first :: rest) duration ci tdp).total_network_gb * (1/10) ∧
    (calcCo2FromMetrics memPerGb (first :: rest) duration ci tdp).power_breakdown.disk_watts ≤ 10 := by
  refine ⟨rfl, rfl, rfl, rfl, rfl, ?_⟩
  simp only [LocalAuditor.calcCo2FromMetrics]
  exact min_le_right _ _

/-- An element of `insertDesc x l` is `x` or an element of `l`. -/
theorem mem_insertDesc {x z : ℚ × PlanGenerator.Action}
    {l : List (ℚ × PlanGenerator.Action)} (h : z ∈ insertDesc x l) :
    z = x ∨ z ∈ l := by
  induction l with
  | nil => simpa [PlanGenerator.insertDesc] using h
  | cons y ys ih =>
    simp only [PlanGenerator.insertDesc] at h
    split at h
    · exact List.mem_cons.mp h
    · rcases List.mem_cons.mp h with rfl | h
      · exact Or.inr (List.mem_cons_self _ _)
      · rcases ih h with h | h
        · exact Or.inl h
        · exact Or.inr (List.mem_cons_of_mem _ h)

/-- The sorted list has the same members as the input. -/
theorem mem_sortScoredDesc {z : ℚ × PlanGenerator.Action}
    {l : List (ℚ × PlanGenerator.Action)} (h : z ∈ sortScoredDesc l) : z ∈ l := by
  induction l with
  | nil => simp [PlanGenerator.sortScoredDesc] at h
  | cons x xs ih =>
    simp only [PlanGenerator.sortScoredDesc] at h
    rcases mem_insertDesc h with rfl | h
    · exact List.mem_cons_self _ _
    · exact List.mem_cons_of_mem _ (ih h)

/-- Inserting into a descending-sorted list keeps it descending-sorted. -/
theorem pairwise_insertDesc (x : ℚ × PlanGenerator.Action)
    {l : List (ℚ × PlanGenerator.Action)}
    (h : l.Pairwise (fun a b => b.1 ≤ a.1)) :
    (insertDesc x l).Pairwise (fun a b => b.1 ≤ a.1) := by
  induction l with
  | nil => simp [PlanGenerator.insertDesc]
  | cons y ys ih =>
    rw [List.pairwise_cons] at h
    obtain ⟨hy, hys⟩ := h
    simp only [PlanGenerator.insertDesc]
    split
    · rename_i hc
      refine List.Pairwise.cons ?_ (List.Pairwise.cons hy hys)
      intro z hz
      rcases List.mem_cons.mp hz with rfl | hz
      · exact hc
      · exact le_trans (hy z hz) hc
    · rename_i hc
      refine List.Pairwise.cons ?_ (ih hys)
      intro z hz
      rcases mem_insertDesc hz with rfl | hz
      · exact le_of_not_le hc
      · exact hy z hz

/-- The stable sort used before greedy selection is descending in the score. -/
theorem sortScoredDesc_pairwise (l : List (ℚ × PlanGenerator.Action)) :
    (sortScoredDesc l).Pairwise (fun a b => b.1 ≤ a.1) := by
  induction l with
  | nil => simp [PlanGenerator.sortScoredDesc]
  | cons x xs ih =>
    simp only [PlanGenerator.sortScoredDesc]
    exact pairwise_insertDesc x ih

/-- Once the cumulative reduction reaches the target the greedy loop accepts
nothing further. -/
theorem greedySelect_eq_nil (target : ℚ) (l : List (ℚ × PlanGenerator.Action))
    {cum : ℚ} (h : ¬ cum < target) : greedySelect target l cum = [] := by
  induction l with
  | nil => rfl
  | cons p rest ih =>
    obtain ⟨s, a⟩ := p
    simp only [PlanGenerator.greedySelect, if_neg h]
    split
    · rfl
    · exact ih

/-- The greedy selection takes an initial segment of the scored candidate
list, in order and with no backtracking. -/
theorem greedySelect_isPrefix (target : ℚ) :
    ∀ (l : List (ℚ × PlanGenerator.Action)) (cum : ℚ),
      List.IsPrefix (greedySelect target l cum) (l.map (fun p => p.2)) := by
  intro l
  induction l with
  | nil => intro cum; simp [PlanGenerator.greedySelect]
  | cons p rest ih =>
    intro cum
    obtain ⟨s, a⟩ := p
    by_cases h : cum < target
    · simp only [PlanGenerator.greedySelect, if_pos h]
      split
      · exact ⟨rest.map (fun p : ℚ × PlanGenerator.Action => p.2), by simp⟩
      · obtain ⟨t, ht⟩ := ih (cum + a.co2_reduction)
        exact ⟨t, by simp [List.map_cons, ht]⟩
    · rw [greedySelect_eq_nil target _ h]
      exact List.nil_prefix


/-- Every accepted action was accepted while the cumulative reduction was
still below the target. -/
theorem greedySelect_partial_sums (target : ℚ) :
    ∀ (l : List (ℚ × PlanGenerator.Action)) (cum : ℚ) (i : ℕ),
      i < (greedySelect target l cum).length →
      cum + (((greedySelect target l cum).take i).map
          (fun a => a.co2_reduction)).sum < target := by
  intro l
  induction l with
  | nil => intro cum i h; simp [PlanGenerator.greedySelect] at h
  | cons p rest ih =>
    intro cum i h
    obtain ⟨s, a⟩ := p
    by_cases hc : cum < target
    · by_cases h2 : target * (3/2) < cum + a.co2_reduction
      · simp only [PlanGenerator.greedySelect, if_pos hc, if_pos h2] at h ⊢
        simp only [List.length_singleton, Nat.lt_one_iff] at h
        subst h
        simpa using hc
      · simp only [PlanGenerator.greedySelect, if_pos hc, if_neg h2] at h ⊢
        cases i with
        | zero => simpa using hc
        | succ j =>
          simp only [List.length_cons, Nat.succ_lt_succ_iff] at h
          have hj := ih (cum + a.co2_reduction) j h
          simp only [List.take_succ_cons, List.map_cons, List.sum_cons]
          linarith
    · rw [greedySelect_eq_nil target _ hc] at h
      simp at h

/-- A scored pair carries the impact/effort ratio of its action, a timeline
score within the timeframe, and an action of the candidate list. -/
theorem mem_scoredActions {q : ℚ × PlanGenerator.Action}
    {avail : List PlanGenerator.Action} {tf : ℚ}
    (h : q ∈ scoredActions avail tf) :
    q.1 = actionRatio q.2 ∧ timelineScore q.2 ≤ tf ∧ q.2 ∈ avail := by
  simp only [PlanGenerator.scoredActions, List.mem_map, List.mem_filter,
    decide_eq_true_eq] at h
  obtain ⟨a, ⟨ha, hf⟩, rfl⟩ := h
  exact ⟨rfl, hf, ha⟩

/-- Every selected action passed the timeframe filter and came from the
candidate list. -/
theorem mem_selectActions {a : PlanGenerator.Action}
    {avail : List PlanGenerator.Action} {target tf : ℚ}
    (h : a ∈ selectActions avail target tf) :
    timelineScore a ≤ tf ∧ a ∈ avail := by
  unfold PlanGenerator.selectActions at h
  have hp := ((greedySelect_isPrefix target
      (sortScoredDesc (scoredActions avail tf)) 0).sublist).subset h
  obtain ⟨q, hq, rfl⟩ := List.mem_map.mp hp
  have hm := mem_scoredActions (mem_sortScoredDesc hq)
  exact ⟨hm.2.1, hm.2.2⟩

/-- Claim C3 counterexample: with two equal-effort candidates the selection
order follows co2/(effort*timeline), not co2/effort alone: `demoActB`
precedes `demoActA` in the output although its co2/effort score is smaller. -/
theorem c3_sort_key_counterexample :
    selectActions [demoActA, demoActB] 100 12 = [demoActB, demoActA] ∧
    demoActB.co2_reduction / effortScore demoActB.effort_level
      < demoActA.co2_reduction / effortScore demoActA.effort_level := by
  have elow : effortScore "low" = 1 := rfl
  have hA : actionRatio demoActA = 5 := by
    rw [PlanGenerator.actionRatio]
    norm_num [demoActA, PlanGenerator.timelineScore, elow]
  have hB : actionRatio demoActB = 8 := by
    rw [PlanGenerator.actionRatio]
    norm_num [demoActB, PlanGenerator.timelineScore, elow]
  have hfA : timelineScore demoActA ≤ (12:ℚ) := by
    norm_num [PlanGenerator.timelineScore, demoActA]
  have hfB : timelineScore demoActB ≤ (12:ℚ) := by
    norm_num [PlanGenerator.timelineScore, demoActB]
  have hs : scoredActions [demoActA, demoActB] 12
      = [(5, demoActA), (8, demoActB)] := by
    simp [PlanGenerator.scoredActions, List.filter_cons, hfA, hfB, hA, hB]
  have hsort : sortScoredDesc [(5, demoActA), (8, demoActB)]
      = [(8, demoActB), (5, demoActA)] := by
    norm_num [PlanGenerator.sortScoredDesc, PlanGenerator.insertDesc]
  have hg : greedySelect 100 [(8, demoActB), (5, demoActA)] 0
      = [demoActB, demoActA] := by
    norm_num [PlanGenerator.greedySelect, demoActA, demoActB]
  refine ⟨?_, ?_⟩
  · rw [PlanGenerator.selectActions, hs, hsort, hg]
  · have e1 : effortScore demoActB.effort_level = 1 := rfl
    have e2 : effortScore demoActA.effort_level = 1 := rfl
    rw [e1, e2]
    norm_num [demoActA, demoActB]

/-- Claim C3 amended: selection scores each fitting candidate by
co2_reduction / (effort_score * (timeline_weeks/4)), sorts descending by that
score, and accepts greedily in sorted order with no backtracking, each action
being accepted only while the cumulative reduction is still below the target,
the loop stopping outright once the cumulative reduction exceeds 1.5 times
the target. -/
theorem c3_amended_greedy_selection (avail : List PlanGenerator.Action)
    (target tf : ℚ) :
    (∀ q ∈ sortScoredDesc (scoredActions avail tf), q.1 = actionRatio q.2) ∧
    (sortScoredDesc (scoredActions avail tf)).Pairwise (fun a b => b.1 ≤ a.1) ∧
    List.IsPrefix (selectActions avail target tf)
      ((sortScoredDesc (scoredActions avail tf)).map (fun q => q.2)) ∧
    ∀ i < (selectActions avail target tf).length,
      (((selectActions avail target tf).take i).map
        (fun a => a.co2_reduction)).sum < target := by
  refine ⟨?_, sortScoredDesc_pairwise _, greedySelect_isPrefix target _ 0, ?_⟩
  · intro q hq
    exact (mem_scoredActions (mem_sortScoredDesc hq)).1
  · intro i hi
    simp only [PlanGenerator.selectActions] at hi ⊢
    simpa using greedySelect_partial_sums target
      (sortScoredDesc (scoredActions avail tf)) 0 i hi

/-- Witness for C3 amended on the two-candidate list: the selected actions
are an initial segment of the sorted candidates. -/
theorem c3_amended_greedy_selection_witness :
    List.IsPrefix (selectActions [demoActA, demoActB] 100 12)
      ((sortScoredDesc (scoredActions [demoActA, demoActB] 12)).map
        (fun q => q.2)) :=
  (c3_amended_greedy_selection [demoActA, demoActB] 100 12).2.2.1

/-- Claim C10: every action selected into a generated plan fits the requested
timeframe: its timeline_weeks / 4 is at most timeframe_months, because
candidates with larger converted timelines are excluded before scoring. -/
theorem c10_selected_actions_fit_timeframe
    (st : List (String × List PlanGenerator.Action)) (focus : String)
    (b : PlanGenerator.Baseline) (target tf : ℚ) :
    ∀ a ∈ planActions st focus b target tf, a.timeline_weeks / 4 ≤ tf := by
  intro a ha
  have hm : a ∈ selectActions (getAvailableActions st focus b) target tf := ha
  have := (mem_selectActions hm).1
  simpa [PlanGenerator.timelineScore] using this

/-- Witness for C10: the one action selected from `demoTemplates` fits the
12-month timeframe. -/
theorem c10_selected_actions_fit_timeframe_witness :
    demoActE.timeline_weeks / 4 ≤ (12:ℚ) := by
  have elow : effortScore "low" = 1 := rfl
  have havail : getAvailableActions demoTemplates "x" ⟨0, 0, 0, 0⟩ = [demoActE] := by
    simp [PlanGenerator.getAvailableActions, demoTemplates,
      PlanGenerator.actionApplicable, PlanGenerator.adjustAction, demoActE,
      List.lookup_cons]
  have hr : actionRatio demoActE = 100 := by
    rw [PlanGenerator.actionRatio]
    norm_num [demoActE, PlanGenerator.timelineScore, elow]
  have hf : timelineScore demoActE ≤ (12:ℚ) := by
    norm_num [PlanGenerator.timelineScore, demoActE]
  have hs : scoredActions [demoActE] 12 = [(100, demoActE)] := by
    simp [PlanGenerator.scoredActions, List.filter_cons, hf, hr]
  have hsort : sortScoredDesc [(100, demoActE)] = [(100, demoActE)] := by
    norm_num [PlanGenerator.sortScoredDesc, PlanGenerator.insertDesc]
  have hg : greedySelect 20 [(100, demoActE)] 0 = [demoActE] := by
    norm_num [PlanGenerator.greedySelect, demoActE]
  have hmem : demoActE ∈ planActions demoTemplates "x" ⟨0, 0, 0, 0⟩ 20 12 := by
    rw [PlanGenerator.planActions, havail, PlanGenerator.selectActions, hs, hsort, hg]
    exact List.mem_cons_self _ _
  exact c10_selected_actions_fit_timeframe demoTemplates "x" ⟨0, 0, 0, 0⟩ 20 12
    demoActE hmem

/-- A successful categorization exhibits a keyword of the returned category
occurring in the lower-cased item name. -/
theorem categorize_mem_keywords {name : String} {c : String}
    (h : categorizeItem name = some c) :
    ∃ kws, (c, kws) ∈ ReceiptParser.CATEGORY_KEYWORDS ∧
      ∃ kw ∈ kws, charsContains kw.toList (lowerChars name) = true := by
  unfold ReceiptParser.categorizeItem at h
  obtain ⟨p, hp, hf⟩ := List.exists_of_findSome?_eq_some h
  split at hf
  · rename_i hcond
    obtain rfl : p.1 = c := by simpa using hf
    obtain ⟨kw, hkw, hck⟩ := List.any_eq_true.mp hcond
    exact ⟨p.2, hp, kw, hkw, hck⟩
  · simp at hf

/-- A name containing a keyword of some category is categorized. -/
theorem categorize_isSome_of_match {name : String}
    (h : ∃ p ∈ ReceiptParser.CATEGORY_KEYWORDS, ∃ kw ∈ p.2,
        charsContains kw.toList (lowerChars name) = true) :
    ∃ c, categorizeItem name = some c := by
  obtain ⟨p, hp, kw, hkw, hc⟩ := h
  rcases hfind : categorizeItem name with _ | c
  · exfalso
    unfold ReceiptParser.categorizeItem at hfind
    have h2 := (List.findSome?_eq_none_iff.mp hfind) p hp
    rw [if_pos (List.any_eq_true.mpr ⟨kw, hkw, hc⟩)] at h2
    exact Option.some_ne_none _ h2
  · exact ⟨c, rfl⟩

/-- Every pair of the local price table carries a positive price. -/
theorem price_per_unit_pos : ∀ p ∈ ReceiptParser.PRICE_PER_UNIT, 0 < p.2 := by
  intro p hp
  fin_cases hp <;> norm_num

/-- Every category of the keyword table has a positive emission factor. -/
theorem keyword_category_factor_pos :
    ∀ p ∈ ReceiptParser.CATEGORY_KEYWORDS,
      0 < (ReceiptParser.EMISSION_FACTORS.lookup p.1).getD 0 := by
  intro p hp
  fin_cases hp <;>
    simp [ReceiptParser.EMISSION_FACTORS, List.lookup_cons]

/-- The assumed unit price of any item name is positive. -/
theorem assumedUnitPrice_pos (item : String) : 0 < assumedUnitPrice item := by
  unfold ReceiptParser.assumedUnitPrice
  split
  · norm_num
  · split
    · norm_num
    · split
      · norm_num
      · rcases hopt : (categorizeItem item).bind
            (fun c => ReceiptParser.PRICE_PER_UNIT.lookup c) with _ | v
        · norm_num
        · simp only [Option.getD_some]
          obtain ⟨c, hc, hl⟩ := Option.bind_eq_some.mp hopt
          simpa using price_per_unit_pos (c, v) (lookup_mem hl)

/-- Bucket structure of the footprint fold: the two buckets partition the
items, the total is the sum over the matched bucket, an uncategorized item
lands in the unmatched bucket, and, when prices and quantities are positive,
a categorized item lands in the matched bucket with positive CO2. -/
theorem calcFootprint_buckets (items : List ReceiptParser.ReceiptItem)
    (hpos : ∀ it ∈ items, 0 < it.price ∧ 0 < it.quantity) :
    (calcFootprint items).items_with_emissions.length
        + (calcFootprint items).unmatched_items.length = items.length ∧
    (calcFootprint items).total_co2_kg
        = ((calcFootprint items).items_with_emissions.map
            (fun r => r.co2_emissions_kg)).sum ∧
    (∀ it ∈ items, categorizeItem it.name = none →
        it.name ∈ (calcFootprint items).unmatched_items) ∧
    (∀ it ∈ items, (categorizeItem it.name).isSome →
        ∃ r ∈ (calcFootprint items).items_with_emissions,
          r.name = it.name ∧ 0 < r.co2_emissions_kg) := by
  induction items with
  | nil => simp [ReceiptParser.calcFootprint]
  | cons it rest ih =>
    have hposr : ∀ x ∈ rest, 0 < x.price ∧ 0 < x.quantity :=
      fun x hx => hpos x (List.mem_cons_of_mem _ hx)
    obtain ⟨ih1, ih2, ih3, ih4⟩ := ih hposr
    rcases hcat : categorizeItem it.name with _ | c
    · simp only [ReceiptParser.calcFootprint, hcat]
      refine ⟨?_, ih2, ?_, ?_⟩
      · simp only [List.length_cons]
        omega
      · intro x hx hnone
        rcases List.mem_cons.mp hx with rfl | hx
        · exact List.mem_cons_self _ _
        · exact List.mem_cons_of_mem _ (ih3 x hx hnone)
      · intro x hx hsome
        rcases List.mem_cons.mp hx with rfl | hx
        · rw [hcat] at hsome
          simp at hsome
        · exact ih4 x hx hsome
    · have hf : 0 < (ReceiptParser.EMISSION_FACTORS.lookup c).getD 0 := by
        obtain ⟨kws, hmem, _⟩ := categorize_mem_keywords hcat
        exact keyword_category_factor_pos (c, kws) hmem
      have hamt : 0 < ReceiptParser.estimateAmount it.name it.price it.quantity := by
        unfold ReceiptParser.estimateAmount
        exact mul_pos
          (div_pos (hpos it (List.mem_cons_self _ _)).1 (assumedUnitPrice_pos _))
          (hpos it (List.mem_cons_self _ _)).2
      simp only [ReceiptParser.calcFootprint, hcat, if_pos hf]
      refine ⟨?_, ?_, ?_, ?_⟩
      · simp only [List.length_cons]
        omega
      · simp only [List.map_cons, List.sum_cons, ih2]
      · intro x hx hnone
        rcases List.mem_cons.mp hx with rfl | hx
        · rw [hcat] at hnone
          simp at hnone
        · exact ih3 x hx hnone
      · intro x hx hsome
        rcases List.mem_cons.mp hx with rfl | hx
        · exact ⟨_, List.mem_cons_self _ _, rfl, mul_pos hamt hf⟩
        · obtain ⟨r, hr, hn, hpos2⟩ := ih4 x hx hsome
          exact ⟨r, List.mem_cons_of_mem _ hr, hn, hpos2⟩

/-- Claim C7: an item whose name contains a known keyword is assigned a
category whose keyword it contains and, with positive price and quantity,
contributes a strictly positive CO2 record to the matched bucket; an
uncategorized item goes to the unmatched bucket and contributes nothing (the
total is the sum over matched records only); the bucket sizes add up to the
item count, so each item lands in exactly one bucket. -/
theorem c7_receipt_matching (items : List ReceiptParser.ReceiptItem)
    (hpos : ∀ it ∈ items, 0 < it.price ∧ 0 < it.quantity) :
    ((calcFootprint items).items_with_emissions.length
        + (calcFootprint items).unmatched_items.length = items.length) ∧
    ((calcFootprint items).total_co2_kg
        = ((calcFootprint items).items_with_emissions.map
            (fun r => r.co2_emissions_kg)).sum) ∧
    (∀ it ∈ items, ∀ c, categorizeItem it.name = some c →
        ∃ kws, (c, kws) ∈ ReceiptParser.CATEGORY_KEYWORDS ∧
          ∃ kw ∈ kws, charsContains kw.toList (lowerChars it.name) = true) ∧
    (∀ it ∈ items,
        (∃ p ∈ ReceiptParser.CATEGORY_KEYWORDS, ∃ kw ∈ p.2,
            charsContains kw.toList (lowerChars it.name) = true) →
          ∃ c, categorizeItem it.name = some c) ∧
    (∀ it ∈ items, categorizeItem it.name = none →
        it.name ∈ (calcFootprint items).unmatched_items) ∧
    (∀ it ∈ items, (categorizeItem it.name).isSome →
        ∃ r ∈ (calcFootprint items).items_with_emissions,
          r.name = it.name ∧ 0 < r.co2_emissions_kg) := by
  obtain ⟨h1, h2, h3, h4⟩ := calcFootprint_buckets items hpos
  exact ⟨h1, h2, fun it _ c hc => categorize_mem_keywords hc,
    fun it _ hm => categorize_isSome_of_match hm, h3, h4⟩

/-- Witness for C7 on `demoItems`: the matched and unmatched buckets
partition the two items. -/
theorem c7_receipt_matching_witness :
    (calcFootprint demoItems).items_with_emissions.length
        + (calcFootprint demoItems).unmatched_items.length = demoItems.length :=
  (c7_receipt_matching demoItems (by
    intro it hit
    simp only [demoItems] at hit
    rcases List.mem_cons.mp hit with rfl | hit
    · exact ⟨by norm_num, by norm_num⟩
    · rcases List.mem_cons.mp hit with rfl | hit
      · exact ⟨by norm_num, by norm_num⟩
      · simp at hit)).1

/-- Claim C4 counterexample: for the item "beef" with price 15 and quantity
2 the estimated amount is (price / assumed price) * quantity = 2, not
price / assumed price = 1 as claimed: the quantity also enters the per-item
computation. -/
theorem c4_estimate_amount_counterexample :
    categorizeItem "beef" = some "meat_beef" ∧
    assumedUnitPrice "beef" = 15 ∧
    estimateAmount "beef" 15 2 ≠ 15 / assumedUnitPrice "beef" ∧
    estimateAmount "beef" 15 2 = 15 / assumedUnitPrice "beef" * 2 := by
  have hc : categorizeItem "beef" = some "meat_beef" := by decide
  have hl : lowerString "beef" = "beef" := rfl
  have hu : assumedUnitPrice "beef" = 15 := by
    rw [ReceiptParser.assumedUnitPrice, if_pos hl]
  refine ⟨hc, hu, ?_, rfl⟩
  rw [ReceiptParser.estimateAmount, hu]
  norm_num

/-- Claim C4 amended: for every matched receipt item the estimated amount
equals (price / assumed unit price) * quantity, and its CO2 contribution
equals that estimated amount times the category emission factor; price,
quantity, the assumed unit price of the item name and the emission factor
are the only inputs of the per-item computation. -/
theorem c4_amended_estimate_formula (items : List ReceiptParser.ReceiptItem) :
    ∀ r ∈ (calcFootprint items).items_with_emissions,
      r.estimated_amount = r.price / assumedUnitPrice r.name * r.quantity ∧
      r.co2_emissions_kg = r.estimated_amount * r.emission_factor ∧
      r.emission_factor
        = (ReceiptParser.EMISSION_FACTORS.lookup r.category).getD 0 := by
  induction items with
  | nil =>
    intro r hr
    simp [ReceiptParser.calcFootprint] at hr
  | cons it rest ih =>
    intro r hr
    rcases hcat : categorizeItem it.name with _ | c
    · simp only [ReceiptParser.calcFootprint, hcat] at hr
      exact ih r hr
    · simp only [ReceiptParser.calcFootprint, hcat] at hr
      by_cases hf : 0 < (ReceiptParser.EMISSION_FACTORS.lookup c).getD 0
      · rw [if_pos hf] at hr
        rcases List.mem_cons.mp hr with rfl | hr
        · exact ⟨rfl, rfl, rfl⟩
        · exact ih r hr
      · rw [if_neg hf] at hr
        exact ih r hr

/-- Witness for C4 amended on the single-item receipt ("beef", 15, 2). -/
theorem c4_amended_estimate_formula_witness :
    demoItemCarbon.estimated_amount
        = demoItemCarbon.price / assumedUnitPrice demoItemCarbon.name
            * demoItemCarbon.quantity ∧
    demoItemCarbon.co2_emissions_kg
        = demoItemCarbon.estimated_amount * demoItemCarbon.emission_factor ∧
    demoItemCarbon.emission_factor
        = (ReceiptParser.EMISSION_FACTORS.lookup demoItemCarbon.category).getD 0 :=
  c4_amended_estimate_formula [⟨"beef", 15, 2⟩] demoItemCarbon (by
    have hc : categorizeItem "beef" = some "meat_beef" := by decide
    have hlk : (ReceiptParser.EMISSION_FACTORS.lookup "meat_beef").getD 0 = (27:ℚ) := rfl
    have hu : assumedUnitPrice "beef" = 15 := by
      rw [ReceiptParser.assumedUnitPrice,
        if_pos (show lowerString "beef" = "beef" from rfl)]
    have hamt : ReceiptParser.estimateAmount "beef" 15 2 = 2 := by
      rw [ReceiptParser.estimateAmount, hu]
      norm_num
    have hfp : (calcFootprint [⟨"beef", 15, 2⟩]).items_with_emissions
        = [demoItemCarbon] := by
      simp only [ReceiptParser.calcFootprint, hc]
      rw [if_pos (by rw [hlk]; norm_num)]
      norm_num [hamt, hlk, demoItemCarbon]
    rw [hfp]
    exact List.mem_cons_self _ _)

end CarbonGuard
